import Mathlib

/-!
Shallow embedding of the Help_Desk client script
(`static/app.js`): a chat UI controller wiring a text input, a send
button, a microphone button and a speech-output checkbox to a remote
question-answering endpoint.

Modelling choices:
* DOM state that the script reads or writes is a `UIState` record:
  the transcript (the `messages` container), the input field value
  (`promptInput.value`), the speech checkbox (`speakChk.checked`),
  and the mic button attributes (`rec` class, `disabled`, `title`).
* Externally observable actions (DOM renders, network requests,
  speech-synthesis calls, recognition-engine calls) are an `Effect`
  trace emitted in program order.
* The remote service and the JSON parse are an environment function
  `String → ServiceOutcome`: either the fetch/parse rejects, or a JSON
  object whose optional `answer` field is an optional string.
* An uncaught promise rejection is `Except.error ()` in the result
  component of `handleSend`.
* JavaScript `String.prototype.trim` is embedded as the executable
  `trimJS` (drop leading and trailing whitespace characters).
-/

deriving instance DecidableEq for Except

namespace HelpDesk

/-- Author of a transcript message: the class name passed to `addMsg`
(`"user"` or `"bot"`). -/
inductive Author
  | user
  | bot
  deriving DecidableEq, Repr

/-- One rendered transcript entry: a `div` with the message text,
appended to the `messages` container by `addMsg`. -/
structure Message where
  text : String
  author : Author
  deriving DecidableEq, Repr

/-- Whitespace test for a character, used by the embedded trim. -/
def isWs (c : Char) : Bool := c.isWhitespace

/-- Embedding of JavaScript `String.prototype.trim`: removes leading
and trailing whitespace characters. -/
def trimJS (s : String) : String :=
  String.mk (((s.data.dropWhile isWs).reverse.dropWhile isWs).reverse)

/-- The fixed fallback answer used in `askServer` when the response
carries no truthy `answer` field. -/
def fallbackAnswer : String := "Sorry, I couldn\x27t understand."

/-- What the client observes from one `POST /ask` round trip: either
the fetch or the `res.json()` parse rejects (`failure`), or a JSON
object whose optional `answer` field is modelled as `Option String`
(`Option.none` for an absent field). -/
inductive ServiceOutcome
  | failure
  | response (answer : Option String)
  deriving DecidableEq, Repr

/-- The hosting environment: the remote service behaviour per question,
and whether `"speechSynthesis" in window` holds. -/
structure Env where
  service : String → ServiceOutcome
  synthSupported : Bool

/-- The HTTP request built by `askServer`: `fetch("/ask", { method:
"POST", headers: ..., body: JSON.stringify({ question }) })`. The body
is recorded by its single `question` field. -/
structure PostRequest where
  url : String
  method : String
  contentType : String
  bodyQuestion : String
  deriving DecidableEq, Repr

/-- The request `askServer` issues for a given question. -/
def mkAskRequest (question : String) : PostRequest :=
  { url := "/ask", method := "POST", contentType := "application/json",
    bodyQuestion := question }

/-- Externally observable actions of the script, in program order. -/
inductive Effect
  | renderMsg (text : String) (author : Author)
  | clearInput
  | request (r : PostRequest)
  | synthCancel
  | synthSpeak (text : String) (lang : String)
  | recStart
  | recStop
  deriving DecidableEq, Repr

/-- The DOM state the script reads and writes. -/
structure UIState where
  transcript : List Message
  promptValue : String
  speakChecked : Bool
  micRec : Bool
  micDisabled : Bool
  micTitle : Option String
  deriving DecidableEq, Repr

/-- Embedding of `data.answer || "Sorry, ..."`: a falsy `answer`
(absent field or empty string) yields the fallback, a truthy string is
returned as is. -/
def answerOrFallback (answer : Option String) : String :=
  match answer with
  | Option.none => fallbackAnswer
  | Option.some s => if s = "" then fallbackAnswer else s

/-- Embedding of `askServer(question)`: issues the POST, awaits the response and its
JSON parse; on success returns `data.answer || fallback`, on fetch or
parse failure the returned promise rejects. -/
def askServer (env : Env) (question : String) : List Effect × Except Unit String :=
  match env.service question with
  | ServiceOutcome.failure =>
      ([Effect.request (mkAskRequest question)], Except.error ())
  | ServiceOutcome.response ans =>
      ([Effect.request (mkAskRequest question)],
        Except.ok (answerOrFallback ans))

/-- Embedding of `handleSend()`: trims the input; if empty, returns at once.
Otherwise renders the user message, clears the input, awaits
`askServer`, renders the bot message, and, if the speech checkbox is
checked and synthesis is supported, sets an `en-IN` utterance, cancels
in-flight synthesis and speaks the answer. A rejection from `askServer`
propagates (is not caught). -/
def handleSend (env : Env) (st : UIState) : UIState × List Effect × Except Unit Unit :=
  let q := trimJS st.promptValue
  if q = "" then (st, [], Except.ok ())
  else
    let st1 : UIState := { st with transcript := st.transcript ++ [⟨q, Author.user⟩] }
    let st2 : UIState := { st1 with promptValue := "" }
    let pre : List Effect := [Effect.renderMsg q Author.user, Effect.clearInput]
    match askServer env q with
    | (reqs, Except.error _) => (st2, pre ++ reqs, Except.error ())
    | (reqs, Except.ok ans) =>
        let st3 : UIState := { st2 with transcript := st2.transcript ++ [⟨ans, Author.bot⟩] }
        if st.speakChecked && env.synthSupported then
          (st3, pre ++ reqs ++ [Effect.renderMsg ans Author.bot,
            Effect.synthCancel, Effect.synthSpeak ans "en-IN"], Except.ok ())
        else
          (st3, pre ++ reqs ++ [Effect.renderMsg ans Author.bot], Except.ok ())

/-- Configuration applied to the recognition object at startup. -/
structure RecConfig where
  lang : String
  interimResults : Bool
  maxAlternatives : Nat
  deriving DecidableEq, Repr

/-- Startup assignments `recognition.lang = "en-IN";
recognition.interimResults = false; recognition.maxAlternatives = 1`. -/
def recognitionConfig : RecConfig :=
  { lang := "en-IN", interimResults := false, maxAlternatives := 1 }

/-- Events that can reach the mic button or the recognition object. -/
inductive MicEvent
  | mousedown
  | mouseup
  | result (transcript : String)
  | error
  | ended
  deriving DecidableEq, Repr

/-- Startup branch on the feature check: when recognition is
unsupported, disable the mic button and set its tooltip; when
supported, leave the button untouched (handlers get attached). -/
def setupMic (supported : Bool) (st : UIState) : UIState :=
  if supported then st
  else { st with micDisabled := true,
                 micTitle := Option.some "Voice input not supported in this browser" }

/-- Handler for `mousedown`: add the `rec` class, call `recognition.start()`. -/
def onMicMousedown (st : UIState) : UIState × List Effect :=
  ({ st with micRec := true }, [Effect.recStart])

/-- Handler for `mouseup`: call `recognition.stop()`. -/
def onMicMouseup (st : UIState) : UIState × List Effect :=
  (st, [Effect.recStop])

/-- Handler `recognition.onresult`: write the recognized transcript
into the input field, then invoke `handleSend()`. -/
def onRecResult (env : Env) (st : UIState) (text : String) :
    UIState × List Effect × Except Unit Unit :=
  handleSend env { st with promptValue := text }

/-- Handler `recognition.onerror`: remove the `rec` class. -/
def onRecError (st : UIState) : UIState × List Effect :=
  ({ st with micRec := false }, [])

/-- Handler `recognition.onend`: remove the `rec` class. -/
def onRecEnd (st : UIState) : UIState × List Effect :=
  ({ st with micRec := false }, [])

/-- Dispatch of a mic / recognition event. When recognition is
supported the handlers attached at startup run; when it is unsupported
no handler was attached, so the event has no effect. -/
def dispatchMic (env : Env) (supported : Bool) (ev : MicEvent) (st : UIState) :
    UIState × List Effect × Except Unit Unit :=
  if supported then
    match ev with
    | MicEvent.mousedown => ((onMicMousedown st).1, (onMicMousedown st).2, Except.ok ())
    | MicEvent.mouseup => ((onMicMouseup st).1, (onMicMouseup st).2, Except.ok ())
    | MicEvent.result t => onRecResult env st t
    | MicEvent.error => ((onRecError st).1, (onRecError st).2, Except.ok ())
    | MicEvent.ended => ((onRecEnd st).1, (onRecEnd st).2, Except.ok ())
  else (st, [], Except.ok ())

/-! Concrete fixtures used by witnesses and counterexamples. -/

/-- A service answering "Hello" to "Hi" and with no answer otherwise. -/
def svcHi : String → ServiceOutcome :=
  fun q => if q = "Hi" then ServiceOutcome.response (Option.some "Hello")
           else ServiceOutcome.response Option.none

/-- Environment with the `svcHi` service and no speech synthesis. -/
def envHi : Env := { service := svcHi, synthSupported := false }

/-- Environment with the `svcHi` service and speech synthesis. -/
def envHiSpeak : Env := { service := svcHi, synthSupported := true }

/-- Environment whose service always fails. -/
def envFail : Env :=
  { service := fun _ => ServiceOutcome.failure, synthSupported := true }

/-- Environment whose service always answers an empty JSON object. -/
def envEmpty : Env :=
  { service := fun _ => ServiceOutcome.response Option.none, synthSupported := false }

/-- Initial state with "Hi" typed into the input field. -/
def st0 : UIState :=
  { transcript := [], promptValue := "Hi", speakChecked := false,
    micRec := false, micDisabled := false, micTitle := Option.none }

/-- Like `st0` but with the speech checkbox checked. -/
def stSpeak : UIState := { st0 with speakChecked := true }

/-- Like `st0` but with only whitespace in the input field. -/
def stBlank : UIState := { st0 with promptValue := "   " }

/-! Helper lemmas shared by the claim theorems. -/

/-- One successful send appends exactly the user message followed by
the bot message to the transcript. -/
theorem handleSend_transcript_ok (env : Env) (st : UIState) (ans : Option String)
    (hq : trimJS st.promptValue ≠ "")
    (hs : env.service (trimJS st.promptValue) = ServiceOutcome.response ans) :
    (handleSend env st).1.transcript
      = st.transcript ++ [⟨trimJS st.promptValue, Author.user⟩,
          ⟨answerOrFallback ans, Author.bot⟩] := by
  unfold handleSend askServer
  simp only [hs, if_neg hq]
  by_cases hb : st.speakChecked && env.synthSupported
  · simp [hb]
  · simp [hb]

/-- A send never touches the recording indicator. -/
theorem micRec_handleSend (env : Env) (st : UIState) :
    (handleSend env st).1.micRec = st.micRec := by
  unfold handleSend askServer
  by_cases h : trimJS st.promptValue = ""
  · simp [h]
  · simp only [if_neg h]
    cases hs : env.service (trimJS st.promptValue) with
    | failure => simp
    | response ans =>
      by_cases hb : st.speakChecked && env.synthSupported
      · simp [hb]
      · simp [hb]

/-- Claim C1: for every input whose trimmed value is non-empty, one
invocation of handleSend whose service call succeeds appends exactly
one user message followed by exactly one bot message to the
transcript. -/
theorem claim_C1 (env : Env) (st : UIState) (ans : Option String)
    (hq : trimJS st.promptValue ≠ "")
    (hs : env.service (trimJS st.promptValue) = ServiceOutcome.response ans) :
    (handleSend env st).1.transcript
      = st.transcript ++ [⟨trimJS st.promptValue, Author.user⟩,
          ⟨answerOrFallback ans, Author.bot⟩] :=
  handleSend_transcript_ok env st ans hq hs

/-- Claim C1 witness: with a mocked service response answering "Hello"
to "Hi", the transcript afterwards is ("Hi", user) then
("Hello", bot). -/
theorem claim_C1_witness :
    trimJS st0.promptValue ≠ ""
    ∧ envHi.service (trimJS st0.promptValue)
        = ServiceOutcome.response (Option.some "Hello")
    ∧ (handleSend envHi st0).1.transcript
        = [⟨"Hi", Author.user⟩, ⟨"Hello", Author.bot⟩] :=
  ⟨by decide, by decide,
    (claim_C1 envHi st0 (Option.some "Hello") (by decide) (by decide)).trans
      (by decide)⟩

/-- Claim C2: an absent or falsy answer field yields the fixed
fallback string from askServer and as the rendered bot message; a
truthy answer string is returned exactly. -/
theorem claim_C2 (env : Env) (q : String) (ans : Option String)
    (hs : env.service q = ServiceOutcome.response ans) :
    (askServer env q).2 = Except.ok (answerOrFallback ans)
    ∧ answerOrFallback Option.none = fallbackAnswer
    ∧ answerOrFallback (Option.some "") = fallbackAnswer
    ∧ (∀ s : String, s ≠ "" → answerOrFallback (Option.some s) = s)
    ∧ (∀ st : UIState, trimJS st.promptValue = q → q ≠ "" →
        (handleSend env st).1.transcript
          = st.transcript ++ [⟨q, Author.user⟩,
              ⟨answerOrFallback ans, Author.bot⟩]) := by
  refine ⟨by unfold askServer; simp [hs], rfl, rfl, ?_, ?_⟩
  · intro s h
    simp [answerOrFallback, h]
  · intro st he hq
    have h := handleSend_transcript_ok env st ans (by rw [he]; exact hq) (by rw [he]; exact hs)
    rw [he] at h
    exact h

/-- Claim C2 witness: a mocked empty-object response for "Hi" makes
askServer return the fallback string, and the rendered bot message
equals it. -/
theorem claim_C2_witness :
    envEmpty.service "Hi" = ServiceOutcome.response Option.none
    ∧ (askServer envEmpty "Hi").2 = Except.ok fallbackAnswer
    ∧ (handleSend envEmpty st0).1.transcript
        = [⟨"Hi", Author.user⟩, ⟨fallbackAnswer, Author.bot⟩] := by
  have h := claim_C2 envEmpty "Hi" Option.none (by decide)
  exact ⟨by decide, h.1.trans rfl,
    (h.2.2.2.2 st0 (by decide) (by decide)).trans (by decide)⟩

/-- Claim C3: when the input trims to the empty string, handleSend is
a no-op: state unchanged, no effects, no rejection. -/
theorem claim_C3 (env : Env) (st : UIState)
    (h : trimJS st.promptValue = "") :
    handleSend env st = (st, [], Except.ok ()) := by
  unfold handleSend
  simp [h]

/-- Claim C3 witness: a whitespace-only input leaves the state
untouched and issues no effect. -/
theorem claim_C3_witness :
    trimJS stBlank.promptValue = ""
    ∧ handleSend envHi stBlank = (stBlank, [], Except.ok ()) :=
  ⟨by decide, claim_C3 envHi stBlank (by decide)⟩

/-- Claim C4: on service failure the rejection propagates out of
handleSend, no bot message is rendered, no speech synthesis occurs,
and the already-rendered user message remains. -/
theorem claim_C4 (env : Env) (st : UIState)
    (hq : trimJS st.promptValue ≠ "")
    (hf : env.service (trimJS st.promptValue) = ServiceOutcome.failure) :
    (handleSend env st).2.2 = Except.error ()
    ∧ (handleSend env st).1.transcript
        = st.transcript ++ [⟨trimJS st.promptValue, Author.user⟩]
    ∧ (handleSend env st).2.1
        = [Effect.renderMsg (trimJS st.promptValue) Author.user,
           Effect.clearInput,
           Effect.request (mkAskRequest (trimJS st.promptValue))] := by
  unfold handleSend askServer
  simp [if_neg hq, hf]

/-- Claim C4 witness: with an always-failing service, sending "Hi"
propagates the rejection and leaves only the user message. -/
theorem claim_C4_witness :
    trimJS st0.promptValue ≠ ""
    ∧ envFail.service (trimJS st0.promptValue) = ServiceOutcome.failure
    ∧ (handleSend envFail st0).2.2 = Except.error ()
    ∧ (handleSend envFail st0).1.transcript = [⟨"Hi", Author.user⟩]
    ∧ (handleSend envFail st0).2.1
        = [Effect.renderMsg "Hi" Author.user, Effect.clearInput,
           Effect.request (mkAskRequest "Hi")] := by
  have h := claim_C4 envFail st0 (by decide) (by decide)
  exact ⟨by decide, by decide, h.1, h.2.1.trans (by decide),
    h.2.2.trans (by decide)⟩

/-- Claim C5: after a successful answer, no synthesis call happens
when the checkbox is off or synthesis is unsupported; when both hold,
exactly one synthesis call is made with the exact answer text and the
fixed locale, preceded by a cancel of in-flight synthesis. -/
theorem claim_C5 (env : Env) (st : UIState) (ans : Option String)
    (hq : trimJS st.promptValue ≠ "")
    (hs : env.service (trimJS st.promptValue) = ServiceOutcome.response ans) :
    ((st.speakChecked = false ∨ env.synthSupported = false) →
      (handleSend env st).2.1
        = [Effect.renderMsg (trimJS st.promptValue) Author.user,
           Effect.clearInput,
           Effect.request (mkAskRequest (trimJS st.promptValue)),
           Effect.renderMsg (answerOrFallback ans) Author.bot])
    ∧ (st.speakChecked = true → env.synthSupported = true →
      (handleSend env st).2.1
        = [Effect.renderMsg (trimJS st.promptValue) Author.user,
           Effect.clearInput,
           Effect.request (mkAskRequest (trimJS st.promptValue)),
           Effect.renderMsg (answerOrFallback ans) Author.bot,
           Effect.synthCancel,
           Effect.synthSpeak (answerOrFallback ans) "en-IN"]) := by
  unfold handleSend askServer
  simp only [if_neg hq, hs]
  constructor
  · intro hoff
    have hb : (st.speakChecked && env.synthSupported) = false := by
      rcases hoff with h | h <;> simp [h]
    simp [hb]
  · intro h1 h2
    simp [h1, h2]

/-- Claim C5 witness: with the checkbox off no synthesis effect is
emitted; with it on and synthesis supported, the trace ends with one
cancel followed by one utterance of the exact answer in locale
en-IN. -/
theorem claim_C5_witness :
    (handleSend envHi st0).2.1
      = [Effect.renderMsg "Hi" Author.user, Effect.clearInput,
         Effect.request (mkAskRequest "Hi"),
         Effect.renderMsg "Hello" Author.bot]
    ∧ (handleSend envHiSpeak stSpeak).2.1
      = [Effect.renderMsg "Hi" Author.user, Effect.clearInput,
         Effect.request (mkAskRequest "Hi"),
         Effect.renderMsg "Hello" Author.bot,
         Effect.synthCancel, Effect.synthSpeak "Hello" "en-IN"] := by
  have h1 := (claim_C5 envHi st0 (Option.some "Hello")
    (by decide) (by decide)).1 (Or.inl rfl)
  have h2 := (claim_C5 envHiSpeak stSpeak (Option.some "Hello")
    (by decide) (by decide)).2 rfl rfl
  exact ⟨h1.trans (by decide), h2.trans (by decide)⟩

/-- Claim C6 counterexample: at the concrete input "Hi" with a
successful mocked service, the effect trace starts with the user
message render and only then the input clear, so the trace is not in
the claimed order clear-then-render. -/
theorem claim_C6_counterexample :
    (handleSend envHi st0).2.1
      = [Effect.renderMsg "Hi" Author.user, Effect.clearInput,
         Effect.request (mkAskRequest "Hi"),
         Effect.renderMsg "Hello" Author.bot]
    ∧ (handleSend envHi st0).2.1
      ≠ [Effect.clearInput, Effect.renderMsg "Hi" Author.user,
         Effect.request (mkAskRequest "Hi"),
         Effect.renderMsg "Hello" Author.bot] :=
  ⟨by decide, by decide⟩

/-- Claim C6 (amended): for every input whose trimmed value is
non-empty and a responding service, handleSend performs its steps in
this order: renders the user message, clears the input field
immediately (before the request is issued and thus before the response
arrives), invokes askServer, and renders the returned answer as a bot
message. -/
theorem claim_C6 (env : Env) (st : UIState) (ans : Option String)
    (hq : trimJS st.promptValue ≠ "")
    (hs : env.service (trimJS st.promptValue) = ServiceOutcome.response ans) :
    ((handleSend env st).2.1).take 4
      = [Effect.renderMsg (trimJS st.promptValue) Author.user,
         Effect.clearInput,
         Effect.request (mkAskRequest (trimJS st.promptValue)),
         Effect.renderMsg (answerOrFallback ans) Author.bot] := by
  unfold handleSend askServer
  simp only [if_neg hq, hs]
  by_cases hb : st.speakChecked && env.synthSupported
  · simp [hb, List.take]
  · simp [hb, List.take]

/-- Claim C6 witness: the concrete trace for "Hi" follows the amended
order. -/
theorem claim_C6_witness :
    trimJS st0.promptValue ≠ ""
    ∧ ((handleSend envHi st0).2.1).take 4
        = [Effect.renderMsg "Hi" Author.user, Effect.clearInput,
           Effect.request (mkAskRequest "Hi"),
           Effect.renderMsg "Hello" Author.bot] :=
  ⟨by decide,
    (claim_C6 envHi st0 (Option.some "Hello") (by decide) (by decide)).trans
      (by decide)⟩

/-- Claim C7: a recognition result event writes the recognized
transcript into the input field and invokes handleSend, so a
recognized utterance is processed exactly as the same text typed into
the input field would be. -/
theorem claim_C7 (env : Env) (st : UIState) (text : String) :
    dispatchMic env true (MicEvent.result text) st
      = handleSend env { st with promptValue := text } := rfl

/-- Claim C8: when recognition is unsupported, the mic button is
disabled and annotated with the explanatory tooltip, and every event
on the capture control leaves the state unchanged and emits no effect,
in particular no call to any recognition engine. -/
theorem claim_C8 (env : Env) (st : UIState) (ev : MicEvent) :
    (setupMic false st).micDisabled = true
    ∧ (setupMic false st).micTitle
        = Option.some "Voice input not supported in this browser"
    ∧ dispatchMic env false ev st = (st, [], Except.ok ()) :=
  ⟨rfl, rfl, rfl⟩

/-- Claim C9: every capture error and every natural end-of-utterance
clears the recording indicator and shows no message, and the only
event that moves the indicator from off to on is mousedown. -/
theorem claim_C9 (env : Env) (st : UIState) :
    (dispatchMic env true MicEvent.error st).1.micRec = false
    ∧ (dispatchMic env true MicEvent.ended st).1.micRec = false
    ∧ (dispatchMic env true MicEvent.error st).2.1 = []
    ∧ (dispatchMic env true MicEvent.ended st).2.1 = []
    ∧ (∀ ev, st.micRec = false →
        (dispatchMic env true ev st).1.micRec = true →
        ev = MicEvent.mousedown) := by
  refine ⟨rfl, rfl, rfl, rfl, ?_⟩
  intro ev h0 h1
  cases ev with
  | mousedown => rfl
  | mouseup => simp [dispatchMic, onMicMouseup, h0] at h1
  | result t =>
    have h2 := micRec_handleSend env { st with promptValue := t }
    simp [dispatchMic, onRecResult] at h1
    rw [h2] at h1
    simp [h0] at h1
  | error => simp [dispatchMic, onRecError] at h1
  | ended => simp [dispatchMic, onRecEnd] at h1

/-- Claim C9 witness: from the idle concrete state, mousedown turns
the indicator on and is identified as the only such event. -/
theorem claim_C9_witness :
    st0.micRec = false
    ∧ (dispatchMic envHi true MicEvent.mousedown st0).1.micRec = true
    ∧ MicEvent.mousedown = MicEvent.mousedown :=
  ⟨rfl, rfl, (claim_C9 envHi st0).2.2.2.2 MicEvent.mousedown rfl rfl⟩

/-- Claim C10: for every send that proceeds, the rendered user message
text and the question in the POST body both equal the trimmed input
content, which is non-empty, and every request issued carries exactly
that question. -/
theorem claim_C10 (env : Env) (st : UIState)
    (hq : trimJS st.promptValue ≠ "") :
    Effect.request (mkAskRequest (trimJS st.promptValue)) ∈ (handleSend env st).2.1
    ∧ Effect.renderMsg (trimJS st.promptValue) Author.user ∈ (handleSend env st).2.1
    ∧ trimJS st.promptValue ≠ ""
    ∧ (∀ r : PostRequest, Effect.request r ∈ (handleSend env st).2.1 →
        r = mkAskRequest (trimJS st.promptValue)) := by
  unfold handleSend askServer
  simp only [if_neg hq]
  cases hs : env.service (trimJS st.promptValue) with
  | failure =>
    refine ⟨by simp, by simp, hq, ?_⟩
    intro r hr
    simp at hr
    exact hr
  | response ans =>
    by_cases hb : st.speakChecked && env.synthSupported
    · refine ⟨by simp [hb], by simp [hb], hq, ?_⟩
      intro r hr
      simp [hb] at hr
      exact hr
    · refine ⟨by simp [hb], by simp [hb], hq, ?_⟩
      intro r hr
      simp [hb] at hr
      exact hr

/-- Claim C10 witness: sending "Hi" renders the user message "Hi" and
issues the POST with body question "Hi". -/
theorem claim_C10_witness :
    trimJS st0.promptValue = "Hi"
    ∧ Effect.request (mkAskRequest (trimJS st0.promptValue)) ∈ (handleSend envHi st0).2.1
    ∧ Effect.renderMsg (trimJS st0.promptValue) Author.user ∈ (handleSend envHi st0).2.1 := by
  have h := claim_C10 envHi st0 (by decide)
  exact ⟨by decide, h.1, h.2.1⟩

end HelpDesk
